import Mathlib

/-
  Verification development for the per-room actor of the AgentWorkspaces
  collaboration server (source: src/unnamed/part_003, the Room durable
  object).  The TypeScript class is shallowly embedded: its in-memory
  fields become Lean structures, its handlers become pure functions that
  return an updated state together with an ordered list of observable
  effects (outbound frames and storage writes), and its fire-and-forget
  AI turn becomes an explicit event system.  Timestamps (Date.now) and
  fresh ids (crypto.randomUUID) are passed as parameters.
-/

/-! ## Constants (source lines 4-11) -/

def HEARTBEAT_INTERVAL_MS : Int := 30000

def STALE_TIMEOUT_MS : Int := 45000

def MAX_HISTORY : Nat := 50

def HISTORY_FLUSH_INTERVAL : Nat := 5

/-! ## Data model (source lines 15-51) -/

structure ChatEntry where
  user : String
  text : String
  ts : Nat
deriving Repr, DecidableEq

structure TodoItem where
  text : String
  done : Bool
deriving Repr, DecidableEq

structure PinnedMemory where
  memories : List String
  todos : List TodoItem
deriving Repr, DecidableEq

structure Artifact where
  id : String
  type : String
  title : String
  content : String
  createdAt : Nat
  createdBy : String
deriving Repr, DecidableEq

/-- The id/type/title/createdAt/createdBy projection sent in artifact_list
frames (source lines 136-139 and 222-227). -/
structure ArtifactMeta where
  id : String
  type : String
  title : String
  createdAt : Nat
  createdBy : String
deriving Repr, DecidableEq

def Artifact.meta (a : Artifact) : ArtifactMeta :=
  { id := a.id, type := a.type, title := a.title, createdAt := a.createdAt, createdBy := a.createdBy }

structure RoomSettings where
  systemPrompt : String
  aiAutoRespond : Bool
deriving Repr, DecidableEq

def DEFAULT_SYSTEM_PROMPT : String :=
  "You are a friendly AI participant in a collaborative chat room called AgentWorkspaces. Chat naturally, be warm and conversational, and engage with what people are saying. You can also help with tasks, answer questions, and summarize discussions when asked. Keep responses concise but never robotic — you\x27re part of the group, not a help desk."

def DEFAULT_SETTINGS : RoomSettings :=
  { systemPrompt := DEFAULT_SYSTEM_PROMPT, aiAutoRespond := false }

def emptyPinned : PinnedMemory := { memories := [], todos := [] }

/-! ## JS string primitives, embedded over the character list so that
every handler is fully computable. -/

/-- String.prototype.trim: strip leading and trailing whitespace. -/
def jsTrim (s : String) : String :=
  String.mk (((s.data.dropWhile Char.isWhitespace).reverse.dropWhile Char.isWhitespace).reverse)

/-- String.prototype.startsWith. -/
def jsStartsWith (s p : String) : Bool :=
  List.isPrefixOf p.data s.data

/-- String.prototype.toLowerCase. -/
def jsToLower (s : String) : String :=
  String.mk (s.data.map Char.toLower)

/-! ## Persisted values (storage keys pinned/history/artifacts/settings,
source lines 48-51).  A legacy store may hold todos as plain strings;
current writes hold structured TodoItem values.  The JS code
distinguishes the two shapes by a typeof check on the first element
(source line 76). -/

inductive StoredTodos where
  | legacy (items : List String)
  | current (items : List TodoItem)
deriving Repr, DecidableEq

structure StoredPinned where
  memories : List String
  todos : StoredTodos
deriving Repr, DecidableEq

/-- What storage.put writes for the pinned key: the in-memory value, whose
todos are structured TodoItem records. -/
def encodePinned (pm : PinnedMemory) : StoredPinned :=
  { memories := pm.memories, todos := StoredTodos.current pm.todos }

/-- Stored settings are a JS object spread over DEFAULT_SETTINGS on load,
i.e. a partial record (source line 84). -/
structure StoredSettings where
  systemPrompt : Option String
  aiAutoRespond : Option Bool
deriving Repr, DecidableEq

def encodeSettings (s : RoomSettings) : StoredSettings :=
  { systemPrompt := some s.systemPrompt, aiAutoRespond := some s.aiAutoRespond }

/-- The spread merge of a stored partial settings object over the
defaults (source line 84). -/
def mergeSettings (d : RoomSettings) (p : StoredSettings) : RoomSettings :=
  { systemPrompt := p.systemPrompt.getD d.systemPrompt,
    aiAutoRespond := p.aiAutoRespond.getD d.aiAutoRespond }

/-- The room-scoped key-value store, one field per fixed storage key. -/
structure Store where
  pinned : Option StoredPinned
  history : Option (List ChatEntry)
  artifacts : Option (List Artifact)
  settings : Option StoredSettings
deriving Repr, DecidableEq

/-! ## Outbound frames and observable effects -/

inductive Frame where
  | chat (user : String) (text : String) (ts : Nat)
  | memoryUpdate (pinned : PinnedMemory)
  | artifactList (items : List ArtifactMeta)
  | artifactCreated (a : Artifact)
  | artifactDeleted (id : String)
  | artifactDetail (a : Artifact)
  | settingsUpdate (s : RoomSettings)
  | exportData (pinned : PinnedMemory) (history : List ChatEntry) (artifacts : List Artifact)
  | clearChat
  | presence (count : Nat)
  | pong
deriving Repr, DecidableEq

inductive Effect where
  /-- this.broadcast(frame): sent to every open connection. -/
  | broadcast (f : Frame)
  /-- ws.send(frame): unicast to the connection being handled. -/
  | send (f : Frame)
  /-- schedulePinnedFlush(): arms the debounced pinned write (source
  lines 341-348); the actual store write happens later. -/
  | schedulePinnedFlush
  | putHistory (h : List ChatEntry)
  | putArtifacts (l : List Artifact)
  | putSettings (s : RoomSettings)
  /-- The single multi-key storage.put of the /reset branch (source
  line 256): all four keys written in one call. -/
  | putAllReset (pm : PinnedMemory) (h : List ChatEntry) (l : List Artifact) (s : RoomSettings)
  /-- this.triggerAI(prompt): hands the prompt to the AI orchestrator. -/
  | triggerAIE (prompt : String)
deriving Repr, DecidableEq

/-- Replaying the storage writes of an effect list onto the store.
Broadcasts, unicasts and the debounced-flush arming touch no key. -/
def applyEffect (store : Store) (e : Effect) : Store :=
  match e with
  | Effect.putHistory h => { store with history := some h }
  | Effect.putArtifacts l => { store with artifacts := some l }
  | Effect.putSettings s => { store with settings := some (encodeSettings s) }
  | Effect.putAllReset pm h l s =>
      { pinned := some (encodePinned pm), history := some h,
        artifacts := some l, settings := some (encodeSettings s) }
  | _ => store

def applyEffects (store : Store) (es : List Effect) : Store :=
  es.foldl applyEffect store

/-! ## Room state (source lines 53-67) -/

structure RoomSt where
  history : List ChatEntry
  pinned : PinnedMemory
  artifacts : List Artifact
  settings : RoomSettings
  historyDirty : Nat
deriving Repr, DecidableEq

/-! ## Bounded history append (broadcastChat, source lines 660-666).
splice(0, length - MAX_HISTORY) removes that many entries from the
front, i.e. List.drop. -/

def pushBounded (h : List ChatEntry) (e : ChatEntry) : List ChatEntry :=
  let h2 := h ++ [e]
  if h2.length > MAX_HISTORY then h2.drop (h2.length - MAX_HISTORY) else h2

/-- maybeFlushHistory (source lines 350-357): every
HISTORY_FLUSH_INTERVAL appended entries, write the whole buffer. -/
def maybeFlushHistory (st : RoomSt) : RoomSt × List Effect :=
  let dirty := st.historyDirty + 1
  if HISTORY_FLUSH_INTERVAL ≤ dirty then
    ({ st with historyDirty := 0 }, [Effect.putHistory st.history])
  else
    ({ st with historyDirty := dirty }, [])

def broadcastChat (st : RoomSt) (user text : String) (ts : Nat) : RoomSt × List Effect :=
  let entry : ChatEntry := { user := user, text := text, ts := ts }
  let st1 := { st with history := pushBounded st.history entry }
  let f := maybeFlushHistory st1
  (f.1, f.2 ++ [Effect.broadcast (Frame.chat user text ts)])

/-- broadcastSystem (source lines 668-670): broadcasts a chat-shaped
frame with user System; it does not touch the history buffer. -/
def broadcastSystem (text : String) (ts : Nat) : List Effect :=
  [Effect.broadcast (Frame.chat "System" text ts)]

/-! ## Pinned-memory and artifact mutations (source lines 361-429).
Each returns the updated value, the descriptive result string, and the
emitted effects. -/

def doAddMemory (pm : PinnedMemory) (text : String) : PinnedMemory × String × List Effect :=
  let pm2 := { pm with memories := pm.memories ++ [text] }
  (pm2, "Added memory: \"" ++ text ++ "\"",
   [Effect.schedulePinnedFlush, Effect.broadcast (Frame.memoryUpdate pm2)])

def doDeleteMemory (pm : PinnedMemory) (index : Int) : PinnedMemory × String × List Effect :=
  if index < 0 ∨ (pm.memories.length : Int) ≤ index then
    (pm, "Invalid memory index " ++ toString index ++ ". There are " ++
      toString pm.memories.length ++ " memories (0-indexed).", [])
  else
    let i := index.toNat
    let removed := (pm.memories.get? i).getD ""
    let pm2 := { pm with memories := pm.memories.eraseIdx i }
    (pm2, "Deleted memory at index " ++ toString index ++ ": \"" ++ removed ++ "\"",
     [Effect.schedulePinnedFlush, Effect.broadcast (Frame.memoryUpdate pm2)])

def doAddTodo (pm : PinnedMemory) (text : String) : PinnedMemory × String × List Effect :=
  let pm2 := { pm with todos := pm.todos ++ [{ text := text, done := false }] }
  (pm2, "Added todo: \"" ++ text ++ "\"",
   [Effect.schedulePinnedFlush, Effect.broadcast (Frame.memoryUpdate pm2)])

def doDeleteTodo (pm : PinnedMemory) (index : Int) : PinnedMemory × String × List Effect :=
  if index < 0 ∨ (pm.todos.length : Int) ≤ index then
    (pm, "Invalid todo index " ++ toString index ++ ". There are " ++
      toString pm.todos.length ++ " todos (0-indexed).", [])
  else
    let i := index.toNat
    let removed := (pm.todos.get? i).getD { text := "", done := false }
    let pm2 := { pm with todos := pm.todos.eraseIdx i }
    (pm2, "Deleted todo at index " ++ toString index ++ ": \"" ++ removed.text ++ "\"",
     [Effect.schedulePinnedFlush, Effect.broadcast (Frame.memoryUpdate pm2)])

def doToggleTodo (pm : PinnedMemory) (index : Int) : PinnedMemory × String × List Effect :=
  if index < 0 ∨ (pm.todos.length : Int) ≤ index then
    (pm, "Invalid todo index " ++ toString index ++ ". There are " ++
      toString pm.todos.length ++ " todos (0-indexed).", [])
  else
    let i := index.toNat
    let t := (pm.todos.get? i).getD { text := "", done := false }
    let t2 : TodoItem := { t with done := !t.done }
    let pm2 := { pm with todos := pm.todos.set i t2 }
    (pm2, "Todo \"" ++ t2.text ++ "\" marked as " ++ (if t2.done then "complete" else "incomplete"),
     [Effect.schedulePinnedFlush, Effect.broadcast (Frame.memoryUpdate pm2)])

def doClearMemories (pm : PinnedMemory) : PinnedMemory × String × List Effect :=
  let count := pm.memories.length
  if count = 0 then (pm, "No memories to clear.", [])
  else
    let pm2 := { pm with memories := [] }
    (pm2, "Cleared all " ++ toString count ++ " memories.",
     [Effect.schedulePinnedFlush, Effect.broadcast (Frame.memoryUpdate pm2)])

def doClearTodos (pm : PinnedMemory) : PinnedMemory × String × List Effect :=
  let count := pm.todos.length
  if count = 0 then (pm, "No todos to clear.", [])
  else
    let pm2 := { pm with todos := [] }
    (pm2, "Cleared all " ++ toString count ++ " todos.",
     [Effect.schedulePinnedFlush, Effect.broadcast (Frame.memoryUpdate pm2)])

/-- addArtifact (source lines 305-317); the fresh id and timestamp are
parameters. -/
def addArtifact (arts : List Artifact) (title artifactType content createdBy : String)
    (freshId : String) (ts : Nat) : List Artifact × List Effect :=
  let a : Artifact := { id := freshId, type := artifactType, title := title,
                        content := content, createdAt := ts, createdBy := createdBy }
  (arts ++ [a], [Effect.putArtifacts (arts ++ [a]), Effect.broadcast (Frame.artifactCreated a)])

def doCreateArtifact (arts : List Artifact) (title artifactType content : String)
    (freshId : String) (ts : Nat) : List Artifact × String × List Effect :=
  let r := addArtifact arts title artifactType content "AI" freshId ts
  (r.1, "Created artifact: \"" ++ title ++ "\" (type: " ++ artifactType ++ ")", r.2)

def doDeleteArtifact (arts : List Artifact) (id : String) : List Artifact × String × List Effect :=
  match arts.find? (fun a => a.id == id || jsToLower a.title == jsToLower id) with
  | none =>
    let avail := String.intercalate ", " (arts.map (fun a => "\"" ++ a.title ++ "\" (" ++ a.id ++ ")"))
    (arts, "Artifact not found: \"" ++ id ++ "\". Available: " ++
      (if avail = "" then "none" else avail), [])
  | some artifact =>
    let arts2 := arts.filter (fun a => a.id != artifact.id)
    (arts2, "Deleted artifact: \"" ++ artifact.title ++ "\"",
     [Effect.putArtifacts arts2, Effect.broadcast (Frame.artifactDeleted artifact.id)])

/-- formatPinnedMemory (source lines 651-656). -/
def formatPinnedMemory (pm : PinnedMemory) : String :=
  let parts : List String :=
    (if pm.memories.length > 0 then
      ["Pinned Memories:\n" ++ String.intercalate "\n"
        (pm.memories.enum.map (fun p => "[" ++ toString p.1 ++ "] " ++ p.2))]
     else []) ++
    (if pm.todos.length > 0 then
      ["Todos:\n" ++ String.intercalate "\n"
        (pm.todos.enum.map (fun p =>
          "[" ++ toString p.1 ++ "] [" ++ (if p.2.done then "x" else " ") ++ "] " ++ p.2.text))]
     else [])
  String.intercalate "\n\n" parts

/-! ## Chat command interpretation (source lines 239-269), run on the
state already holding the broadcast message. -/

def interpretCommand (st : RoomSt) (user text : String) (ts : Nat) : RoomSt × List Effect :=
  if jsStartsWith text "/remember " then
    let mem := jsTrim (text.drop "/remember ".length)
    if mem ≠ "" then
      let r := doAddMemory st.pinned mem
      ({ st with pinned := r.1 }, r.2.2)
    else (st, [])
  else if jsStartsWith text "/todo " then
    let t := jsTrim (text.drop "/todo ".length)
    if t ≠ "" then
      let r := doAddTodo st.pinned t
      ({ st with pinned := r.1 }, r.2.2)
    else (st, [])
  else if text = "/memory" then
    let m := formatPinnedMemory st.pinned
    (st, broadcastSystem (if m = "" then "No pinned memory yet." else m) ts)
  else if text = "/export" then
    (st, [Effect.broadcast (Frame.exportData st.pinned st.history st.artifacts)])
  else if text = "/reset" then
    ({ st with pinned := emptyPinned, history := [], artifacts := [], settings := DEFAULT_SETTINGS },
     [Effect.putAllReset emptyPinned [] [] DEFAULT_SETTINGS,
      Effect.broadcast (Frame.memoryUpdate emptyPinned),
      Effect.broadcast (Frame.artifactList []),
      Effect.broadcast (Frame.settingsUpdate DEFAULT_SETTINGS),
      Effect.broadcast Frame.clearChat] ++
     broadcastSystem ("Room has been reset by " ++ (if user = "" then "someone" else user) ++ ".") ts)
  else if text = "/summarize" then
    (st, [Effect.triggerAIE "Summarize the recent discussion concisely. Highlight key points and open questions."])
  else if jsStartsWith text "@ai " then
    let q := jsTrim (text.drop "@ai ".length)
    if q ≠ "" then (st, [Effect.triggerAIE q]) else (st, [])
  else if st.settings.aiAutoRespond && !(jsStartsWith text "/") then
    (st, [Effect.triggerAIE ("Respond to the latest message from " ++ user ++ ": \"" ++ text ++ "\"")])
  else (st, [])

/-- The chat branch of webSocketMessage (source lines 235-269): the raw
(trimmed) message is appended and broadcast first, then commands are
interpreted on the resulting state. -/
def handleChat (st : RoomSt) (user text : String) (ts : Nat) : RoomSt × List Effect :=
  let b := broadcastChat st user text ts
  let c := interpretCommand b.1 user text ts
  (c.1, b.2 ++ c.2)

/-- Validation of an inbound chat frame (source lines 231-235): the user
and text fields must be strings, non-empty, and at most 64 and 2000
characters; invalid frames are silently dropped. -/
def webSocketMessageChat (st : RoomSt) (user text : Option String) (ts : Nat) : RoomSt × List Effect :=
  match user, text with
  | some u, some t =>
    if u.length = 0 ∨ u.length > 64 then (st, [])
    else if t.length = 0 ∨ t.length > 2000 then (st, [])
    else handleChat st u (jsTrim t) ts
  | _, _ => (st, [])

/-! ## The hello handshake (source lines 124-141) -/

structure SessionSt where
  clientIds : List (Nat × String)
  userNames : List (Nat × String)
deriving Repr, DecidableEq

/-- Map.set on an association list keyed by connection. -/
def setAssoc (l : List (Nat × String)) (k : Nat) (v : String) : List (Nat × String) :=
  if l.any (fun p => p.1 == k) then l.map (fun p => if p.1 == k then (k, v) else p)
  else l ++ [(k, v)]

def handleHello (sess : SessionSt) (st : RoomSt) (wsId : Nat)
    (clientId : Option String) (user : Option String) : SessionSt × List Effect :=
  let userName := user.getD "Anonymous"
  let sess2 :=
    match clientId with
    | some cid =>
      { clientIds := setAssoc sess.clientIds wsId cid,
        userNames := setAssoc sess.userNames wsId userName }
    | none => sess
  (sess2,
   st.history.map (fun e => Effect.send (Frame.chat e.user e.text e.ts)) ++
   [Effect.send (Frame.memoryUpdate st.pinned),
    Effect.send (Frame.artifactList (st.artifacts.map Artifact.meta)),
    Effect.send (Frame.settingsUpdate st.settings)])

/-! ## Hydration (ensureLoaded, source lines 69-86) -/

def ensureLoaded (loaded : Bool) (st : RoomSt) (store : Store) : RoomSt × Store × Bool :=
  if loaded then (st, store, true)
  else
    let pmStore : PinnedMemory × Store :=
      match store.pinned with
      | none => (st.pinned, store)
      | some sp =>
        match sp.todos with
        | StoredTodos.current l => ({ memories := sp.memories, todos := l }, store)
        | StoredTodos.legacy l =>
          if 0 < l.length then
            let migrated : PinnedMemory :=
              { memories := sp.memories, todos := l.map (fun t => { text := t, done := false }) }
            (migrated, { store with pinned := some (encodePinned migrated) })
          else ({ memories := sp.memories, todos := [] }, store)
    let hist := store.history.getD st.history
    let arts := store.artifacts.getD st.artifacts
    let setts :=
      match store.settings with
      | some p => mergeSettings DEFAULT_SETTINGS p
      | none => st.settings
    ({ st with pinned := pmStore.1, history := hist, artifacts := arts, settings := setts },
     pmStore.2, true)

/-! ## AI tool execution (executeToolCall, source lines 542-559).
Arguments arrive as a JSON object; the handlers coerce with
String(x ?? "") and Number(x ?? -1), modelled by optional fields with
the same defaults. -/

structure ToolArgs where
  text : Option String
  index : Option Int
  title : Option String
  type : Option String
  content : Option String
  id : Option String
deriving Repr, DecidableEq

def noArgs : ToolArgs :=
  { text := none, index := none, title := none, type := none, content := none, id := none }

/-- The nine tool names of getAITools (source lines 433-540). -/
def toolNames : List String :=
  ["add_memory", "delete_memory", "add_todo", "delete_todo", "toggle_todo",
   "create_artifact", "clear_memories", "clear_todos", "delete_artifact"]

/-- The switch inside the try block: dispatch to the matching handler;
errors raised by a handler surface as Except.error. -/
def toolDispatch (name : String) (args : ToolArgs) (st : RoomSt)
    (freshId : String) (ts : Nat) : Except String (RoomSt × String × List Effect) :=
  Except.ok (
    if name = "add_memory" then
      let r := doAddMemory st.pinned (args.text.getD "")
      ({ st with pinned := r.1 }, r.2.1, r.2.2)
    else if name = "delete_memory" then
      let r := doDeleteMemory st.pinned (args.index.getD (-1))
      ({ st with pinned := r.1 }, r.2.1, r.2.2)
    else if name = "add_todo" then
      let r := doAddTodo st.pinned (args.text.getD "")
      ({ st with pinned := r.1 }, r.2.1, r.2.2)
    else if name = "delete_todo" then
      let r := doDeleteTodo st.pinned (args.index.getD (-1))
      ({ st with pinned := r.1 }, r.2.1, r.2.2)
    else if name = "toggle_todo" then
      let r := doToggleTodo st.pinned (args.index.getD (-1))
      ({ st with pinned := r.1 }, r.2.1, r.2.2)
    else if name = "clear_memories" then
      let r := doClearMemories st.pinned
      ({ st with pinned := r.1 }, r.2.1, r.2.2)
    else if name = "clear_todos" then
      let r := doClearTodos st.pinned
      ({ st with pinned := r.1 }, r.2.1, r.2.2)
    else if name = "create_artifact" then
      let r := doCreateArtifact st.artifacts (args.title.getD "Untitled")
        (args.type.getD "notes") (args.content.getD "") freshId ts
      ({ st with artifacts := r.1 }, r.2.1, r.2.2)
    else if name = "delete_artifact" then
      let r := doDeleteArtifact st.artifacts (args.id.getD "")
      ({ st with artifacts := r.1 }, r.2.1, r.2.2)
    else (st, "Unknown tool: " ++ name, []))

/-- The catch clause: an exception from the body becomes a textual Tool
error result (source lines 556-558). -/
def runToolBody (st : RoomSt) (body : Except String (RoomSt × String × List Effect)) :
    RoomSt × String × List Effect :=
  match body with
  | Except.ok r => r
  | Except.error e => (st, "Tool error: " ++ e, [])

def executeToolCall (name : String) (args : ToolArgs) (st : RoomSt)
    (freshId : String) (ts : Nat) : RoomSt × String × List Effect :=
  runToolBody st (toolDispatch name args st freshId ts)

/-! ## The AI orchestrator single-flight protocol (triggerAI, source
lines 563-581).  The inference call itself is a black box; what matters
is the flag protocol: reject-with-notice while running, and the
then/catch/finally continuation of the one in-flight turn.  inFlight is
a ghost counter of started-but-not-completed callAI turns. -/

structure AIRoom where
  room : RoomSt
  aiRunning : Bool
  inFlight : Nat
deriving Repr, DecidableEq

def triggerAI (st : AIRoom) (ts : Nat) : AIRoom × List Effect :=
  if st.aiRunning then
    (st, broadcastSystem "AI is already thinking... please wait." ts)
  else
    ({ st with aiRunning := true, inFlight := st.inFlight + 1 },
     broadcastSystem "AI is thinking..." ts)

inductive AIOutcome where
  | reply (text : String)
  | failure (err : String)
deriving Repr, DecidableEq

/-- The continuation chain of one callAI turn: on resolution broadcast
the reply, force a history flush and reset the dirty counter; on
rejection broadcast the error notice; finally clear the flag. -/
def completeAI (st : AIRoom) (o : AIOutcome) (ts : Nat) : AIRoom × List Effect :=
  match o with
  | AIOutcome.reply text =>
    let b := broadcastChat st.room "AI" text ts
    ({ room := { b.1 with historyDirty := 0 }, aiRunning := false, inFlight := st.inFlight - 1 },
     b.2 ++ [Effect.putHistory b.1.history])
  | AIOutcome.failure e =>
    ({ st with aiRunning := false, inFlight := st.inFlight - 1 },
     broadcastSystem ("AI error: " ++ e) ts)

inductive AIEvent where
  | trigger (ts : Nat)
  | complete (o : AIOutcome) (ts : Nat)
deriving Repr, DecidableEq

/-- One scheduler step: a trigger may arrive at any time; a completion
can only be delivered for a turn that is actually in flight. -/
def aiStep (st : AIRoom) (e : AIEvent) : AIRoom × List Effect :=
  match e with
  | AIEvent.trigger ts => triggerAI st ts
  | AIEvent.complete o ts => if st.inFlight = 0 then (st, []) else completeAI st o ts

def aiRun1 (acc : AIRoom × List Effect) (e : AIEvent) : AIRoom × List Effect :=
  let r := aiStep acc.1 e
  (r.1, acc.2 ++ r.2)

def runAI (st : AIRoom) (es : List AIEvent) : AIRoom × List Effect :=
  es.foldl aiRun1 (st, [])

/-- The single-flight invariant: the flag is true exactly while one turn
is in flight. -/
def singleFlight (st : AIRoom) : Prop :=
  st.inFlight = if st.aiRunning then 1 else 0

instance (st : AIRoom) : Decidable (singleFlight st) := by
  unfold singleFlight; infer_instance

/-! ## Connections and the heartbeat alarm (source lines 54-58, 272-301,
678-708).  The per-socket maps keyed by WebSocket object identity are
modelled as partial maps keyed by a numeric socket id; readyState is the
readyStateOpen flag. -/

structure Sock where
  wsId : Nat
  readyStateOpen : Bool
deriving Repr, DecidableEq

structure ConnSt where
  socks : List Sock
  connIds : Nat → Option String
  clientIds : Nat → Option String
  userNames : Nat → Option String
  lastSeen : Nat → Option Int
  heartbeatAlarm : Bool
  /-- ctx.storage.getAlarm / setAlarm: the single pending wake-up time. -/
  alarmScheduled : Option Int

/-- cleanup (source lines 678-684): delete the socket from all four maps
and force-close it. -/
def cleanup (c : ConnSt) (w : Nat) : ConnSt :=
  { c with
    connIds := fun i => if i = w then none else c.connIds i,
    clientIds := fun i => if i = w then none else c.clientIds i,
    userNames := fun i => if i = w then none else c.userNames i,
    lastSeen := fun i => if i = w then none else c.lastSeen i,
    socks := c.socks.map (fun s => if s.wsId = w then { s with readyStateOpen := false } else s) }

/-- getOpenSockets (source lines 693-695). -/
def openSocks (c : ConnSt) : List Sock :=
  c.socks.filter (fun s => s.readyStateOpen)

/-- broadcastPresence (source lines 702-708): one presence frame with
the current open-connection count, sent to every open socket. -/
def broadcastPresenceEffs (c : ConnSt) : List Effect :=
  [Effect.broadcast (Frame.presence (openSocks c).length)]

/-- ensureHeartbeatAlarm (source lines 686-691): never stacks timers;
only sets a new wake-up when none is pending. -/
def ensureHeartbeatAlarm (c : ConnSt) (now : Int) : ConnSt :=
  if c.heartbeatAlarm then c
  else
    match c.alarmScheduled with
    | some _ => { c with heartbeatAlarm := true }
    | none => { c with heartbeatAlarm := true, alarmScheduled := some (now + HEARTBEAT_INTERVAL_MS) }

/-- The cull condition of the alarm scan (source line 292): last seen
more than STALE_TIMEOUT_MS ago and still open. -/
def staleP (c0 : ConnSt) (now : Int) (s : Sock) : Bool :=
  (decide (now - ((c0.lastSeen s.wsId).getD 0) > STALE_TIMEOUT_MS)) && s.readyStateOpen

/-- alarm (source lines 286-301).  Each loop iteration reads the
lastSeen entry and readyState of the socket it examines; cleanup of
other sockets never touches those, so the reads come from the entry
state c0.  The alarm has just fired, delivering consumes it, so the
handler starts with no pending wake-up. -/
def cullStep (c0 : ConnSt) (now : Int) (acc : ConnSt × Nat) (s : Sock) : ConnSt × Nat :=
  if staleP c0 now s then (cleanup acc.1 s.wsId, acc.2 + 1) else acc

def alarmHandler (c0 : ConnSt) (now : Int) : ConnSt × List Effect :=
  let cStart : ConnSt := { c0 with heartbeatAlarm := false }
  let r := c0.socks.foldl (cullStep c0 now) (cStart, 0)
  let effs := if r.2 > 0 then broadcastPresenceEffs r.1 else []
  if (openSocks r.1).length > 0 then (ensureHeartbeatAlarm r.1 now, effs)
  else (r.1, effs)

/-! ## Derived notions used by the specification statements -/

/-- The suffix of the last n elements of a list. -/
def lastN (n : Nat) (l : List α) : List α :=
  l.drop (l.length - n)

/-! ## Concrete fixtures for evaluating the theorems -/

def pmW : PinnedMemory :=
  { memories := [],
    todos := [{ text := "a", done := false }, { text := "b", done := true }] }

def stW : RoomSt :=
  { history := [], pinned := pmW, artifacts := [], settings := DEFAULT_SETTINGS,
    historyDirty := 0 }

def storeLegacyW : Store :=
  { pinned := some { memories := ["m1"], todos := StoredTodos.legacy ["x", "y"] },
    history := none, artifacts := none, settings := none }

def storeW : Store :=
  { pinned := none, history := none, artifacts := none, settings := none }

def aiW : AIRoom := { room := stW, aiRunning := true, inFlight := 1 }

def aiIdleW : AIRoom := { room := stW, aiRunning := false, inFlight := 0 }

def connW : ConnSt :=
  { socks := [{ wsId := 1, readyStateOpen := true },
              { wsId := 2, readyStateOpen := true },
              { wsId := 3, readyStateOpen := false }],
    connIds := fun i => if i ≤ 3 then some ("c" ++ toString i) else none,
    clientIds := fun _ => none,
    userNames := fun _ => none,
    lastSeen := fun i => if i = 1 then some 100000 else if i = 2 then some 10000 else some 0,
    heartbeatAlarm := false,
    alarmScheduled := none }

def entryW (k : Nat) : ChatEntry := { user := "u", text := toString k, ts := k }

def entriesW : List ChatEntry := (List.range 60).map entryW

/-- The connection state after the alarm scan has culled every stale
socket, starting from the handler entry state with the fired-alarm flag
cleared. -/
def cullResult (c0 : ConnSt) (now : Int) : ConnSt :=
  ((c0.socks.filter (staleP c0 now)).map Sock.wsId).foldl cleanup
    { c0 with heartbeatAlarm := false }

/-- The shape of a migrated legacy todo list: each plain string becomes
a not-done TodoItem (source line 77). -/
def migrateTodos (l : List String) : List TodoItem :=
  l.map (fun t => { text := t, done := false })

/-! ## Helper lemmas about the bounded history -/

theorem lastN_length_le (n : Nat) (l : List α) : (lastN n l).length ≤ n := by
  simp [lastN]
  omega

theorem lastN_of_le (n : Nat) (l : List α) (h : l.length ≤ n) : lastN n l = l := by
  simp [lastN, Nat.sub_eq_zero_of_le h]

theorem pushBounded_eq_lastN (h : List ChatEntry) (e : ChatEntry) :
    pushBounded h e = lastN MAX_HISTORY (h ++ [e]) := by
  unfold pushBounded lastN
  by_cases hl : (h ++ [e]).length > MAX_HISTORY
  · rw [if_pos hl]
  · rw [if_neg hl]
    have h0 : (h ++ [e]).length - MAX_HISTORY = 0 := by omega
    rw [h0, List.drop_zero]

theorem lastN_append_lastN (n : Nat) (x y : List α) :
    lastN n (lastN n x ++ y) = lastN n (x ++ y) := by
  by_cases hx : x.length ≤ n
  · rw [lastN_of_le n x hx]
  · push_neg at hx
    unfold lastN
    rw [← List.drop_append_of_le_length (Nat.sub_le x.length n), List.drop_drop]
    congr 1
    simp only [List.length_append, List.length_drop]
    omega

theorem foldl_pushBounded_lastN :
    ∀ (es : List ChatEntry) (start : List ChatEntry), start.length ≤ MAX_HISTORY →
      List.foldl pushBounded start es = lastN MAX_HISTORY (start ++ es) := by
  intro es
  induction es with
  | nil =>
    intro start h
    simp [lastN_of_le MAX_HISTORY start h]
  | cons e rest ih =>
    intro start _
    have hlen : (pushBounded start e).length ≤ MAX_HISTORY := by
      rw [pushBounded_eq_lastN]
      exact lastN_length_le _ _
    rw [List.foldl_cons, ih _ hlen, pushBounded_eq_lastN, lastN_append_lastN]
    congr 1
    simp

theorem foldl_pushBounded_ne_nil (es : List ChatEntry) (start : List ChatEntry)
    (h : es ≠ []) :
    List.foldl pushBounded start es = lastN MAX_HISTORY (start ++ es) := by
  cases es with
  | nil => exact absurd rfl h
  | cons e rest =>
    have hlen : (pushBounded start e).length ≤ MAX_HISTORY := by
      rw [pushBounded_eq_lastN]
      exact lastN_length_le _ _
    rw [List.foldl_cons, foldl_pushBounded_lastN rest _ hlen, pushBounded_eq_lastN,
      lastN_append_lastN]
    congr 1
    simp

/-- Claim C2: for every sequence of chat sends applied to any starting
history, after each send the history length is at most MAX_HISTORY (50),
and the retained history equals the last 50 of the appended entries in
append order (oldest silently dropped on overflow). -/
theorem history_bounded_spec (start entries : List ChatEntry) (i : Nat)
    (hi : i < entries.length) :
    (List.foldl pushBounded start (entries.take (i + 1))).length ≤ MAX_HISTORY ∧
    List.foldl pushBounded start (entries.take (i + 1)) =
      lastN MAX_HISTORY (start ++ entries.take (i + 1)) := by
  have hne : entries.take (i + 1) ≠ [] := by
    intro hc
    have hlen := congrArg List.length hc
    simp only [List.length_take, List.length_nil] at hlen
    omega
  rw [foldl_pushBounded_ne_nil _ _ hne]
  exact ⟨lastN_length_le _ _, rfl⟩

/-- Witness for claim C2 at a concrete 60-send sequence. -/
theorem history_bounded_witness :
    2 < entriesW.length ∧
    (List.foldl pushBounded [] (entriesW.take 3)).length ≤ MAX_HISTORY ∧
    List.foldl pushBounded [] (entriesW.take 3) =
      lastN MAX_HISTORY ([] ++ entriesW.take 3) :=
  ⟨by simp [entriesW], (history_bounded_spec [] entriesW 2 (by simp [entriesW])).1,
   (history_bounded_spec [] entriesW 2 (by simp [entriesW])).2⟩

/-- Claim C5: every index-based pinned-memory mutation (delete memory,
delete todo, toggle todo) given an index that is negative or not less
than the current list length returns a descriptive out-of-range string,
emits no effects, and leaves the pinned-memory value unchanged. -/
theorem index_out_of_range_spec (pm : PinnedMemory) (index : Int) :
    (index < 0 ∨ (pm.memories.length : Int) ≤ index →
      doDeleteMemory pm index =
        (pm, "Invalid memory index " ++ toString index ++ ". There are " ++
          toString pm.memories.length ++ " memories (0-indexed).", [])) ∧
    (index < 0 ∨ (pm.todos.length : Int) ≤ index →
      doDeleteTodo pm index =
        (pm, "Invalid todo index " ++ toString index ++ ". There are " ++
          toString pm.todos.length ++ " todos (0-indexed).", []) ∧
      doToggleTodo pm index =
        (pm, "Invalid todo index " ++ toString index ++ ". There are " ++
          toString pm.todos.length ++ " todos (0-indexed).", [])) := by
  constructor
  · intro h
    unfold doDeleteMemory
    rw [if_pos h]
  · intro h
    constructor
    · unfold doDeleteTodo
      rw [if_pos h]
    · unfold doToggleTodo
      rw [if_pos h]

/-- Witness for claim C5: deleting or toggling todo index 5 on a 2-item
todo list mutates nothing and reports the out-of-range index. -/
theorem index_out_of_range_witness :
    ((5 : Int) < 0 ∨ ((pmW.todos.length : Nat) : Int) ≤ 5) ∧
    doDeleteTodo pmW 5 =
      (pmW, "Invalid todo index " ++ toString (5 : Int) ++ ". There are " ++
        toString pmW.todos.length ++ " todos (0-indexed).", []) ∧
    doToggleTodo pmW 5 =
      (pmW, "Invalid todo index " ++ toString (5 : Int) ++ ". There are " ++
        toString pmW.todos.length ++ " todos (0-indexed).", []) :=
  ⟨by decide, ((index_out_of_range_spec pmW 5).2 (by decide)).1,
   ((index_out_of_range_spec pmW 5).2 (by decide)).2⟩

/-- Claim C9: executing a tool call always yields a string result with
no propagated exception — an exception inside a handler body becomes a
textual Tool error result, and a name outside the nine known tools
yields a textual unknown-tool result with no state change. -/
theorem tool_call_total_spec :
    (∀ (name : String) (args : ToolArgs) (st : RoomSt) (freshId : String) (ts : Nat),
      name ∉ toolNames →
      executeToolCall name args st freshId ts = (st, "Unknown tool: " ++ name, [])) ∧
    (∀ (st : RoomSt) (e : String),
      runToolBody st (Except.error e) = (st, "Tool error: " ++ e, [])) ∧
    (∀ (name : String) (args : ToolArgs) (st : RoomSt) (freshId : String) (ts : Nat),
      ∃ out : RoomSt × String × List Effect,
        executeToolCall name args st freshId ts = out) := by
  refine ⟨?_, fun st e => rfl, fun name args st freshId ts => ⟨_, rfl⟩⟩
  intro name args st freshId ts h
  simp only [toolNames, List.mem_cons, List.not_mem_nil, or_false, not_or] at h
  obtain ⟨h1, h2, h3, h4, h5, h6, h7, h8, h9⟩ := h
  simp [executeToolCall, runToolBody, toolDispatch, h1, h2, h3, h4, h5, h6, h7, h8, h9]

/-- Witness for claim C9 at the unknown tool name frobnicate. -/
theorem tool_call_total_witness :
    "frobnicate" ∉ toolNames ∧
    executeToolCall "frobnicate" noArgs stW "" 0 =
      (stW, "Unknown tool: " ++ "frobnicate", []) :=
  ⟨by decide, tool_call_total_spec.1 "frobnicate" noArgs stW "" 0 (by decide)⟩

/-- Claim C10: a hello frame whose clientId is missing or not a string
registers no client identity or display name, yet still pushes the full
snapshot — every retained history entry in order, then the pinned
snapshot, the artifact index, and the settings. -/
theorem hello_missing_clientid_spec (sess : SessionSt) (st : RoomSt) (wsId : Nat)
    (user : Option String) :
    handleHello sess st wsId none user =
      (sess,
       st.history.map (fun e => Effect.send (Frame.chat e.user e.text e.ts)) ++
       [Effect.send (Frame.memoryUpdate st.pinned),
        Effect.send (Frame.artifactList (st.artifacts.map Artifact.meta)),
        Effect.send (Frame.settingsUpdate st.settings)]) := rfl

/-- Counterexample to claim C4 as stated: handling the chat frame
"/memory" emits a System notice frame, yet the resulting history
contains no System entry — broadcastSystem does not append to the
bounded chat history. -/
theorem system_notice_not_appended_cex :
    Effect.broadcast (Frame.chat "System" "Todos:\n[0] [ ] a\n[1] [x] b" 5)
      ∈ (webSocketMessageChat stW (some "alice") (some "/memory") 5).2 ∧
    ∀ e ∈ (webSocketMessageChat stW (some "alice") (some "/memory") 5).1.history,
      e.user ≠ "System" := by decide

/-- Claim C4 (amended): every system notice is broadcast as a single
chat-shaped frame with user System, but it is NOT appended to the
bounded chat history: command interpretation (the only emitter of system
notices in the chat path) either leaves the history unchanged or clears
it (/reset); only broadcastChat appends entries. -/
theorem system_notice_broadcast_only_spec :
    (∀ (text : String) (ts : Nat),
      broadcastSystem text ts = [Effect.broadcast (Frame.chat "System" text ts)]) ∧
    (∀ (st : RoomSt) (u t : String) (ts : Nat),
      (interpretCommand st u t ts).1.history = st.history ∨
      (interpretCommand st u t ts).1.history = []) := by
  refine ⟨fun text ts => rfl, ?_⟩
  intro st u t ts
  unfold interpretCommand
  repeat' split
  all_goals dsimp only
  all_goals repeat' split
  all_goals first | (left; rfl) | (right; rfl)

/-- Claim C6: hydration reproduces the persisted pinned-memory value
unchanged, except that a non-empty legacy string-array todo list is
migrated to structured not-done items and rewritten to the store; the
migration is idempotent (hydrating the rewritten store again changes
nothing), and a second hydration call in the same activation is a
no-op. -/
theorem hydration_migration_spec (st : RoomSt) (store : Store) :
    (ensureLoaded true st store = (st, store, true)) ∧
    (∀ ms l, store.pinned = some { memories := ms, todos := StoredTodos.current l } →
      (ensureLoaded false st store).1.pinned = { memories := ms, todos := l } ∧
      (ensureLoaded false st store).2.1 = store) ∧
    (∀ ms l, store.pinned = some { memories := ms, todos := StoredTodos.legacy l } → l ≠ [] →
      (ensureLoaded false st store).1.pinned = { memories := ms, todos := migrateTodos l } ∧
      (ensureLoaded false st store).2.1 =
        { store with pinned := some { memories := ms, todos := StoredTodos.current (migrateTodos l) } } ∧
      (∀ st2 : RoomSt,
        (ensureLoaded false st2 (ensureLoaded false st store).2.1).1.pinned =
          (ensureLoaded false st store).1.pinned ∧
        (ensureLoaded false st2 (ensureLoaded false st store).2.1).2.1 =
          (ensureLoaded false st store).2.1)) := by
  refine ⟨rfl, ?_, ?_⟩
  · intro ms l h
    constructor <;> simp [ensureLoaded, h]
  · intro ms l h hne
    have hpos : 0 < l.length := List.length_pos.mpr hne
    have h1 : (ensureLoaded false st store).1.pinned = { memories := ms, todos := migrateTodos l } := by
      simp [ensureLoaded, h, hpos, migrateTodos]
    have h2 : (ensureLoaded false st store).2.1 =
        { store with pinned := some { memories := ms, todos := StoredTodos.current (migrateTodos l) } } := by
      simp [ensureLoaded, h, hpos, encodePinned, migrateTodos]
    refine ⟨h1, h2, ?_⟩
    intro st2
    rw [h2, h1]
    constructor <;> simp [ensureLoaded]

/-- Witness for claim C6 at a concrete legacy store. -/
theorem hydration_migration_witness :
    storeLegacyW.pinned = some { memories := ["m1"], todos := StoredTodos.legacy ["x", "y"] } ∧
    (ensureLoaded false stW storeLegacyW).1.pinned =
      { memories := ["m1"], todos := migrateTodos ["x", "y"] } ∧
    (ensureLoaded false stW (ensureLoaded false stW storeLegacyW).2.1).1.pinned =
      (ensureLoaded false stW storeLegacyW).1.pinned :=
  ⟨rfl,
   ((hydration_migration_spec stW storeLegacyW).2.2 ["m1"] ["x", "y"] rfl (by decide)).1,
   (((hydration_migration_spec stW storeLegacyW).2.2 ["m1"] ["x", "y"] rfl (by decide)).2.2 stW).1⟩

/-! ## Helper lemmas for the single-flight invariant -/

theorem aiStep_preserves_singleFlight (st : AIRoom) (e : AIEvent) (h : singleFlight st) :
    singleFlight (aiStep st e).1 := by
  unfold singleFlight at h ⊢
  cases e with
  | trigger ts =>
    by_cases hr : st.aiRunning
    · simpa [aiStep, triggerAI, hr] using h
    · simp [aiStep, triggerAI, hr] at h ⊢
      omega
  | complete o ts =>
    by_cases hz : st.inFlight = 0
    · simpa [aiStep, hz] using h
    · have h1 : st.inFlight = 1 := by
        by_cases hb : st.aiRunning <;> simp [hb] at h <;> omega
      cases o <;> simp [aiStep, hz, completeAI, h1]

theorem runAI_preserves_singleFlight (es : List AIEvent) :
    ∀ (st : AIRoom) (effs : List Effect), singleFlight st →
      singleFlight (es.foldl aiRun1 (st, effs)).1 := by
  induction es with
  | nil => intro st effs h; exact h
  | cons e rest ih =>
    intro st effs h
    rw [List.foldl_cons]
    show singleFlight (rest.foldl aiRun1 ((aiStep st e).1, effs ++ (aiStep st e).2)).1
    exact ih _ _ (aiStep_preserves_singleFlight st e h)

/-- Claim C1: the aiRunning flag guards exactly one in-flight AI turn:
a trigger while the flag is set broadcasts exactly one already-thinking
system notice and changes nothing else (no turn started or queued);
every completion of a turn, reply or error, resets the flag; the
single-flight invariant is preserved along every event trace; and two
back-to-back triggers followed by one completion produce exactly one
already-thinking notice and exactly one AI chat reply, with the flag
released. -/
theorem ai_single_flight_spec :
    (∀ (st : AIRoom) (ts : Nat), st.aiRunning = true →
      triggerAI st ts =
        (st, [Effect.broadcast (Frame.chat "System" "AI is already thinking... please wait." ts)])) ∧
    (∀ (st : AIRoom) (o : AIOutcome) (ts : Nat), (completeAI st o ts).1.aiRunning = false) ∧
    (∀ (st : AIRoom) (es : List AIEvent), singleFlight st → singleFlight (runAI st es).1) ∧
    (∀ (st : AIRoom) (r : String) (t1 t2 t3 : Nat),
      st.aiRunning = false → st.inFlight = 0 →
      (runAI st [AIEvent.trigger t1, AIEvent.trigger t2,
                 AIEvent.complete (AIOutcome.reply r) t3]).1.aiRunning = false ∧
      ((runAI st [AIEvent.trigger t1, AIEvent.trigger t2,
                 AIEvent.complete (AIOutcome.reply r) t3]).2.countP (fun e =>
          match e with
          | Effect.broadcast (Frame.chat u text _) =>
              u == "System" && text == "AI is already thinking... please wait."
          | _ => false) = 1) ∧
      ((runAI st [AIEvent.trigger t1, AIEvent.trigger t2,
                 AIEvent.complete (AIOutcome.reply r) t3]).2.countP (fun e =>
          match e with
          | Effect.broadcast (Frame.chat u _ _) => u == "AI"
          | _ => false) = 1)) := by
  refine ⟨?_, ?_, ?_, ?_⟩
  · intro st ts h
    simp [triggerAI, h, broadcastSystem]
  · intro st o ts
    cases o <;> simp [completeAI]
  · intro st es h
    exact runAI_preserves_singleFlight es st [] h
  · intro st r t1 t2 t3 h1 h2
    by_cases hd : HISTORY_FLUSH_INTERVAL ≤ st.room.historyDirty + 1 <;>
      simp [runAI, aiRun1, aiStep, triggerAI, completeAI, h1, h2, broadcastSystem,
        broadcastChat, maybeFlushHistory, hd, List.countP_cons, List.countP_append]

/-- Witness for claim C1: a busy room rejects with one notice; an idle
room serving two back-to-back triggers ends with the flag released. -/
theorem ai_single_flight_witness :
    aiW.aiRunning = true ∧
    triggerAI aiW 7 =
      (aiW, [Effect.broadcast (Frame.chat "System" "AI is already thinking... please wait." 7)]) ∧
    aiIdleW.aiRunning = false ∧
    (runAI aiIdleW [AIEvent.trigger 1, AIEvent.trigger 2,
        AIEvent.complete (AIOutcome.reply "hi") 3]).1.aiRunning = false :=
  ⟨rfl, ai_single_flight_spec.1 aiW 7 rfl, rfl,
   (ai_single_flight_spec.2.2.2 aiIdleW "hi" 1 2 3 rfl rfl).1⟩

/-- Claim C3: for every valid inbound chat frame, the handler is exactly
broadcast-then-interpret: the (trimmed) message is appended to history
and its broadcast is the last effect of the broadcast phase — whose only
effects are that broadcast and a possible history flush — so every
slash-command or at-ai effect comes strictly after the raw message is
visible. -/
theorem chat_broadcast_first_spec (st : RoomSt) (u t : String) (ts : Nat)
    (hu1 : 1 ≤ u.length) (hu2 : u.length ≤ 64)
    (ht1 : 1 ≤ t.length) (ht2 : t.length ≤ 2000) :
    webSocketMessageChat st (some u) (some t) ts =
      ((interpretCommand (broadcastChat st u (jsTrim t) ts).1 u (jsTrim t) ts).1,
       (broadcastChat st u (jsTrim t) ts).2 ++
         (interpretCommand (broadcastChat st u (jsTrim t) ts).1 u (jsTrim t) ts).2) ∧
    (broadcastChat st u (jsTrim t) ts).2.getLast? =
      some (Effect.broadcast (Frame.chat u (jsTrim t) ts)) ∧
    (broadcastChat st u (jsTrim t) ts).1.history =
      pushBounded st.history { user := u, text := jsTrim t, ts := ts } ∧
    (∀ e ∈ (broadcastChat st u (jsTrim t) ts).2,
      (∃ hl, e = Effect.putHistory hl) ∨ e = Effect.broadcast (Frame.chat u (jsTrim t) ts)) := by
  have hv1 : ¬(u.length = 0 ∨ u.length > 64) := by omega
  have hv2 : ¬(t.length = 0 ∨ t.length > 2000) := by omega
  refine ⟨?_, ?_, ?_, ?_⟩
  · simp [webSocketMessageChat, hv1, hv2, handleChat]
  · unfold broadcastChat
    dsimp only
    rw [List.getLast?_concat]
  · unfold broadcastChat maybeFlushHistory
    dsimp only
    split <;> rfl
  · intro e he
    unfold broadcastChat maybeFlushHistory at he
    dsimp only at he
    split at he
    · simp at he
      rcases he with he | he
      · exact Or.inl ⟨_, he⟩
      · exact Or.inr he
    · simp at he
      exact Or.inr he

/-- Witness for claim C3 at a concrete at-ai chat frame. -/
theorem chat_broadcast_first_witness :
    (1 ≤ ("alice" : String).length ∧ ("alice" : String).length ≤ 64) ∧
    (broadcastChat stW "alice" (jsTrim "@ai help") 3).2.getLast? =
      some (Effect.broadcast (Frame.chat "alice" (jsTrim "@ai help") 3)) :=
  ⟨⟨by decide, by decide⟩,
   (chat_broadcast_first_spec stW "alice" "@ai help" 3 (by decide) (by decide)
     (by decide) (by decide)).2.1⟩

theorem applyEffects_append (store : Store) (xs ys : List Effect) :
    applyEffects store (xs ++ ys) = applyEffects (applyEffects store xs) ys := by
  simp [applyEffects, List.foldl_append]

/-- Claim C7: processing a reset chat command sets history, pinned
memory, artifacts and settings to their empty/default values, persists
all four cleared values in exactly one multi-key storage write,
broadcasts a clear-chat frame, and a hello handshake processed on the
resulting state (no intervening mutations) pushes an empty snapshot. -/
theorem reset_clears_all_spec (st : RoomSt) (store : Store) (u : String) (ts : Nat)
    (sess : SessionSt) (wsId : Nat) (cid uname : Option String)
    (hu1 : 1 ≤ u.length) (hu2 : u.length ≤ 64) :
    (webSocketMessageChat st (some u) (some "/reset") ts).1.history = [] ∧
    (webSocketMessageChat st (some u) (some "/reset") ts).1.pinned = emptyPinned ∧
    (webSocketMessageChat st (some u) (some "/reset") ts).1.artifacts = [] ∧
    (webSocketMessageChat st (some u) (some "/reset") ts).1.settings = DEFAULT_SETTINGS ∧
    ((webSocketMessageChat st (some u) (some "/reset") ts).2.countP (fun e =>
        match e with
        | Effect.putAllReset _ _ _ _ => true
        | _ => false) = 1) ∧
    Effect.putAllReset emptyPinned [] [] DEFAULT_SETTINGS
      ∈ (webSocketMessageChat st (some u) (some "/reset") ts).2 ∧
    Effect.broadcast Frame.clearChat ∈ (webSocketMessageChat st (some u) (some "/reset") ts).2 ∧
    applyEffects store (webSocketMessageChat st (some u) (some "/reset") ts).2 =
      { pinned := some (encodePinned emptyPinned), history := some [],
        artifacts := some [], settings := some (encodeSettings DEFAULT_SETTINGS) } ∧
    (handleHello sess (webSocketMessageChat st (some u) (some "/reset") ts).1 wsId cid uname).2 =
      [Effect.send (Frame.memoryUpdate emptyPinned),
       Effect.send (Frame.artifactList []),
       Effect.send (Frame.settingsUpdate DEFAULT_SETTINGS)] := by
  have hv1 : ¬(u.length = 0 ∨ u.length > 64) := by omega
  have hv2 : ¬(("/reset" : String).length = 0 ∨ ("/reset" : String).length > 2000) := by decide
  have hr : webSocketMessageChat st (some u) (some "/reset") ts =
      handleChat st u (jsTrim "/reset") ts := by
    simp [webSocketMessageChat, hv1, hv2]
  rw [hr]
  have htrim : jsTrim "/reset" = "/reset" := rfl
  rw [htrim]
  unfold handleChat
  dsimp only
  refine ⟨rfl, rfl, rfl, rfl, ?_, ?_, ?_, ?_, rfl⟩
  · rw [List.countP_append]
    have hz : (broadcastChat st u "/reset" ts).2.countP (fun e =>
        match e with
        | Effect.putAllReset _ _ _ _ => true
        | _ => false) = 0 := by
      unfold broadcastChat maybeFlushHistory
      dsimp only
      split <;> rfl
    rw [hz]
    rfl
  · have c1 : jsStartsWith "/reset" "/remember " = false := rfl
    have c2 : jsStartsWith "/reset" "/todo " = false := rfl
    have c3 : ("/reset" : String) ≠ "/memory" := by decide
    have c4 : ("/reset" : String) ≠ "/export" := by decide
    exact List.mem_append_right _ (by simp [interpretCommand, c1, c2, c3, c4])
  · have c1 : jsStartsWith "/reset" "/remember " = false := rfl
    have c2 : jsStartsWith "/reset" "/todo " = false := rfl
    have c3 : ("/reset" : String) ≠ "/memory" := by decide
    have c4 : ("/reset" : String) ≠ "/export" := by decide
    exact List.mem_append_right _ (by simp [interpretCommand, c1, c2, c3, c4, broadcastSystem])
  · rw [applyEffects_append]
    rfl

/-- Witness for claim C7 at a concrete room and store. -/
theorem reset_clears_all_witness :
    (1 ≤ ("alice" : String).length ∧ ("alice" : String).length ≤ 64) ∧
    (webSocketMessageChat stW (some "alice") (some "/reset") 9).1.history = [] ∧
    applyEffects storeW (webSocketMessageChat stW (some "alice") (some "/reset") 9).2 =
      { pinned := some (encodePinned emptyPinned), history := some [],
        artifacts := some [], settings := some (encodeSettings DEFAULT_SETTINGS) } :=
  ⟨⟨by decide, by decide⟩,
   (reset_clears_all_spec stW storeW "alice" 9 { clientIds := [], userNames := [] } 1
     none none (by decide) (by decide)).1,
   (reset_clears_all_spec stW storeW "alice" 9 { clientIds := [], userNames := [] } 1
     none none (by decide) (by decide)).2.2.2.2.2.2.2.1⟩

/-! ## Helper lemmas for the heartbeat alarm scan -/

theorem cullFold_eq (c0 : ConnSt) (now : Int) :
    ∀ (socks : List Sock) (c : ConnSt) (k : Nat),
      socks.foldl (cullStep c0 now) (c, k) =
        (((socks.filter (staleP c0 now)).map Sock.wsId).foldl cleanup c,
         k + (socks.filter (staleP c0 now)).length) := by
  intro socks
  induction socks with
  | nil => intro c k; simp
  | cons s rest ih =>
    intro c k
    rw [List.foldl_cons]
    by_cases hs : staleP c0 now s
    · rw [show cullStep c0 now (c, k) s = (cleanup c s.wsId, k + 1) from by
        unfold cullStep; rw [if_pos hs]]
      rw [ih]
      simp [hs]
      omega
    · rw [show cullStep c0 now (c, k) s = (c, k) from by
        unfold cullStep; rw [if_neg hs]]
      rw [ih]
      simp [hs]

theorem cleanups_connIds :
    ∀ (ids : List Nat) (c : ConnSt) (i : Nat),
      (ids.foldl cleanup c).connIds i = if i ∈ ids then none else c.connIds i := by
  intro ids
  induction ids with
  | nil => intro c i; simp
  | cons w rest ih =>
    intro c i
    rw [List.foldl_cons, ih]
    by_cases h1 : i ∈ rest <;> by_cases h2 : i = w <;> simp [cleanup, h1, h2]

theorem cleanups_clientIds :
    ∀ (ids : List Nat) (c : ConnSt) (i : Nat),
      (ids.foldl cleanup c).clientIds i = if i ∈ ids then none else c.clientIds i := by
  intro ids
  induction ids with
  | nil => intro c i; simp
  | cons w rest ih =>
    intro c i
    rw [List.foldl_cons, ih]
    by_cases h1 : i ∈ rest <;> by_cases h2 : i = w <;> simp [cleanup, h1, h2]

theorem cleanups_userNames :
    ∀ (ids : List Nat) (c : ConnSt) (i : Nat),
      (ids.foldl cleanup c).userNames i = if i ∈ ids then none else c.userNames i := by
  intro ids
  induction ids with
  | nil => intro c i; simp
  | cons w rest ih =>
    intro c i
    rw [List.foldl_cons, ih]
    by_cases h1 : i ∈ rest <;> by_cases h2 : i = w <;> simp [cleanup, h1, h2]

theorem cleanups_lastSeen :
    ∀ (ids : List Nat) (c : ConnSt) (i : Nat),
      (ids.foldl cleanup c).lastSeen i = if i ∈ ids then none else c.lastSeen i := by
  intro ids
  induction ids with
  | nil => intro c i; simp
  | cons w rest ih =>
    intro c i
    rw [List.foldl_cons, ih]
    by_cases h1 : i ∈ rest <;> by_cases h2 : i = w <;> simp [cleanup, h1, h2]

theorem cleanups_socks :
    ∀ (ids : List Nat) (c : ConnSt),
      (ids.foldl cleanup c).socks =
        c.socks.map (fun s => if s.wsId ∈ ids then { s with readyStateOpen := false } else s) := by
  intro ids
  induction ids with
  | nil => intro c; simp
  | cons w rest ih =>
    intro c
    rw [List.foldl_cons, ih]
    show (c.socks.map (fun s => if s.wsId = w then { s with readyStateOpen := false } else s)).map
        (fun s => if s.wsId ∈ rest then { s with readyStateOpen := false } else s) = _
    rw [List.map_map]
    apply List.map_congr_left
    intro s _
    by_cases h2 : s.wsId = w <;> by_cases h1 : s.wsId ∈ rest <;>
      simp [Function.comp, h1, h2, List.mem_cons]

theorem cleanups_flags :
    ∀ (ids : List Nat) (c : ConnSt),
      (ids.foldl cleanup c).heartbeatAlarm = c.heartbeatAlarm ∧
      (ids.foldl cleanup c).alarmScheduled = c.alarmScheduled := by
  intro ids
  induction ids with
  | nil => intro c; exact ⟨rfl, rfl⟩
  | cons w rest ih =>
    intro c
    rw [List.foldl_cons]
    exact ih (cleanup c w)

theorem ensure_apply (c : ConnSt) (now : Int)
    (h1 : c.heartbeatAlarm = false) (h2 : c.alarmScheduled = none) :
    ensureHeartbeatAlarm c now =
      { c with heartbeatAlarm := true, alarmScheduled := some (now + HEARTBEAT_INTERVAL_MS) } := by
  unfold ensureHeartbeatAlarm
  simp [h1, h2]

theorem alarmHandler_eq (c0 : ConnSt) (now : Int) :
    alarmHandler c0 now =
      (if 0 < (openSocks (cullResult c0 now)).length
         then ensureHeartbeatAlarm (cullResult c0 now) now else cullResult c0 now,
       if 0 < (c0.socks.filter (staleP c0 now)).length
         then [Effect.broadcast (Frame.presence (openSocks (cullResult c0 now)).length)]
         else []) := by
  unfold alarmHandler cullResult
  dsimp only
  rw [cullFold_eq]
  by_cases h1 : 0 < (c0.socks.filter (staleP c0 now)).length <;>
    by_cases h2 : 0 < (openSocks (((c0.socks.filter (staleP c0 now)).map Sock.wsId).foldl cleanup
        { c0 with heartbeatAlarm := false })).length <;>
      simp [h1, h2, broadcastPresenceEffs]

/-- Claim C8: when the heartbeat alarm fires, every open connection not
seen for more than STALE_TIMEOUT_MS is force-closed and removed from all
session maps; updated presence (the count of connections open after the
scan) is broadcast iff at least one connection was reclaimed; and the
wake-up timer is re-armed iff at least one connection remains open.
Socket ids are pairwise distinct (they stand for object identities), and
the fired alarm has been consumed, so none is pending on entry. -/
theorem alarm_reclaims_stale_spec (c0 : ConnSt) (now : Int)
    (halarm : c0.alarmScheduled = none)
    (hnd : (c0.socks.map Sock.wsId).Nodup) :
    (∀ s ∈ c0.socks, staleP c0 now s = true →
      (alarmHandler c0 now).1.connIds s.wsId = none ∧
      (alarmHandler c0 now).1.clientIds s.wsId = none ∧
      (alarmHandler c0 now).1.userNames s.wsId = none ∧
      (alarmHandler c0 now).1.lastSeen s.wsId = none ∧
      (∀ s2 ∈ (alarmHandler c0 now).1.socks, s2.wsId = s.wsId → s2.readyStateOpen = false)) ∧
    ((Effect.broadcast (Frame.presence (openSocks (alarmHandler c0 now).1).length)
        ∈ (alarmHandler c0 now).2) ↔ ∃ s ∈ c0.socks, staleP c0 now s = true) ∧
    ((alarmHandler c0 now).1.alarmScheduled = some (now + HEARTBEAT_INTERVAL_MS) ↔
      ∃ s ∈ c0.socks, s.readyStateOpen = true ∧ staleP c0 now s = false) := by
  have hflags : (cullResult c0 now).heartbeatAlarm = false ∧
      (cullResult c0 now).alarmScheduled = none := by
    unfold cullResult
    rcases cleanups_flags ((c0.socks.filter (staleP c0 now)).map Sock.wsId)
      { c0 with heartbeatAlarm := false } with ⟨hf1, hf2⟩
    exact ⟨hf1, by rw [hf2]; exact halarm⟩
  have hsocks : (cullResult c0 now).socks =
      c0.socks.map (fun s =>
        if s.wsId ∈ (c0.socks.filter (staleP c0 now)).map Sock.wsId
        then { s with readyStateOpen := false } else s) := by
    unfold cullResult
    rw [cleanups_socks]
  have hmemids : ∀ s ∈ c0.socks,
      (s.wsId ∈ (c0.socks.filter (staleP c0 now)).map Sock.wsId ↔ staleP c0 now s = true) := by
    intro s hs
    constructor
    · intro hmem
      rcases List.mem_map.mp hmem with ⟨s2, hs2mem, hws⟩
      rcases List.mem_filter.mp hs2mem with ⟨hs2socks, hs2stale⟩
      have heq := List.inj_on_of_nodup_map hnd hs2socks hs hws
      rw [← heq]
      exact hs2stale
    · intro hstale
      exact List.mem_map.mpr ⟨s, List.mem_filter.mpr ⟨hs, hstale⟩, rfl⟩
  have hAfields : (alarmHandler c0 now).1.connIds = (cullResult c0 now).connIds ∧
      (alarmHandler c0 now).1.clientIds = (cullResult c0 now).clientIds ∧
      (alarmHandler c0 now).1.userNames = (cullResult c0 now).userNames ∧
      (alarmHandler c0 now).1.lastSeen = (cullResult c0 now).lastSeen ∧
      (alarmHandler c0 now).1.socks = (cullResult c0 now).socks := by
    rw [alarmHandler_eq]
    by_cases hop : 0 < (openSocks (cullResult c0 now)).length <;>
      simp [hop, ensure_apply _ _ hflags.1 hflags.2]
  have hstaleex : 0 < (c0.socks.filter (staleP c0 now)).length ↔
      ∃ s ∈ c0.socks, staleP c0 now s = true := by
    rw [List.length_pos, Ne, List.filter_eq_nil_iff]
    push_neg
    rfl
  have hopen : 0 < (openSocks (cullResult c0 now)).length ↔
      ∃ s ∈ c0.socks, s.readyStateOpen = true ∧ staleP c0 now s = false := by
    rw [List.length_pos]
    unfold openSocks
    rw [Ne, List.filter_eq_nil_iff]
    push_neg
    constructor
    · rintro ⟨x, hx, hopenx⟩
      rw [hsocks] at hx
      rcases List.mem_map.mp hx with ⟨s, hsmem, rfl⟩
      by_cases hin : s.wsId ∈ (c0.socks.filter (staleP c0 now)).map Sock.wsId
      · rw [if_pos hin] at hopenx
        simp at hopenx
      · rw [if_neg hin] at hopenx
        refine ⟨s, hsmem, hopenx, ?_⟩
        cases hst : staleP c0 now s
        · rfl
        · exact absurd ((hmemids s hsmem).mpr hst) hin
    · rintro ⟨s, hsmem, hopens, hnstale⟩
      have hnin : s.wsId ∉ (c0.socks.filter (staleP c0 now)).map Sock.wsId := by
        intro hin
        have hst := (hmemids s hsmem).mp hin
        rw [hnstale] at hst
        exact Bool.noConfusion hst
      refine ⟨(fun s => if s.wsId ∈ (c0.socks.filter (staleP c0 now)).map Sock.wsId
          then { s with readyStateOpen := false } else s) s, ?_, ?_⟩
      · rw [hsocks]
        exact List.mem_map_of_mem _ hsmem
      · dsimp only
        rw [if_neg hnin]
        exact hopens
  refine ⟨?_, ?_, ?_⟩
  · intro s hs hst
    have hid : s.wsId ∈ (c0.socks.filter (staleP c0 now)).map Sock.wsId :=
      (hmemids s hs).mpr hst
    refine ⟨?_, ?_, ?_, ?_, ?_⟩
    · rw [hAfields.1]
      unfold cullResult
      rw [cleanups_connIds]
      exact if_pos hid
    · rw [hAfields.2.1]
      unfold cullResult
      rw [cleanups_clientIds]
      exact if_pos hid
    · rw [hAfields.2.2.1]
      unfold cullResult
      rw [cleanups_userNames]
      exact if_pos hid
    · rw [hAfields.2.2.2.1]
      unfold cullResult
      rw [cleanups_lastSeen]
      exact if_pos hid
    · intro s2 hs2 hws
      rw [hAfields.2.2.2.2, hsocks] at hs2
      rcases List.mem_map.mp hs2 with ⟨s3, hs3mem, rfl⟩
      by_cases hin : s3.wsId ∈ (c0.socks.filter (staleP c0 now)).map Sock.wsId
      · rw [if_pos hin]
      · rw [if_neg hin] at hws ⊢
        exact absurd (hws ▸ hid) hin
  · constructor
    · intro hmem
      rw [alarmHandler_eq] at hmem
      by_cases hfl : 0 < (c0.socks.filter (staleP c0 now)).length
      · exact hstaleex.mp hfl
      · rw [if_neg hfl] at hmem
        exact absurd hmem (List.not_mem_nil _)
    · intro hex
      have hfl := hstaleex.mpr hex
      rw [alarmHandler_eq]
      dsimp only
      rw [if_pos hfl]
      by_cases hop : 0 < (openSocks (cullResult c0 now)).length
      · rw [if_pos hop, ensure_apply _ _ hflags.1 hflags.2]
        exact List.mem_singleton.mpr rfl
      · rw [if_neg hop]
        exact List.mem_singleton.mpr rfl
  · constructor
    · intro heq
      rw [alarmHandler_eq] at heq
      by_cases hop : 0 < (openSocks (cullResult c0 now)).length
      · exact hopen.mp hop
      · rw [if_neg hop] at heq
        dsimp only at heq
        rw [hflags.2] at heq
        exact Option.noConfusion heq
    · intro hex
      have hop := hopen.mpr hex
      rw [alarmHandler_eq]
      dsimp only
      rw [if_pos hop, ensure_apply _ _ hflags.1 hflags.2]

/-- Witness for claim C8: at time 100000, socket 2 (last seen 10000) is
stale and gets unregistered, while socket 1 (last seen 100000) stays
open, so the timer is re-armed. -/
theorem alarm_reclaims_stale_witness :
    connW.alarmScheduled = none ∧
    staleP connW 100000 { wsId := 2, readyStateOpen := true } = true ∧
    (alarmHandler connW 100000).1.connIds 2 = none ∧
    (alarmHandler connW 100000).1.alarmScheduled = some (100000 + HEARTBEAT_INTERVAL_MS) :=
  ⟨rfl, by decide,
   ((alarm_reclaims_stale_spec connW 100000 rfl (by decide)).1
      { wsId := 2, readyStateOpen := true } (by decide) (by decide)).1,
   (alarm_reclaims_stale_spec connW 100000 rfl (by decide)).2.2.mpr
      ⟨{ wsId := 1, readyStateOpen := true }, by decide, by decide, by decide⟩⟩
